import Mathlib

/-!
Shallow embedding of the skynet-accounts core: the Stripe subscription
reconciler (`processSub`, `assignTier`, `createStripeCustomer`,
`planForTier`, the `stripePlans` table) and the Mongo query layer
(`generateUploadsPipeline`, `generateDownloadsPipeline`, `count`).
Definitions are translated from the Go source; external collaborators
(the Stripe API, MongoDB aggregation, the `database.User` record which is
not among the provided source files) are modelled at their interface
boundary, as documented on each definition.
-/

/-! ## Tiers and the plan table -/

/-- Modelled from the spec: the tier constants of the `database` package
(the package source is not among the provided files). The spec describes a
tier as "an enumerated integer service level (free, and one or more paid
tiers)"; the exact integer values are irrelevant to every claim, only
their distinctness matters. -/
def TierFree : Int := 1

/-- Modelled from the spec: paid tier constant (see `TierFree`). -/
def TierPremium5 : Int := 2

/-- Modelled from the spec: paid tier constant (see `TierFree`). -/
def TierPremium20 : Int := 3

/-- Modelled from the spec: paid tier constant (see `TierFree`). -/
def TierPremium80 : Int := 4

/-- The `stripePlans` table (`map[string]int` in Go) embedded as an
association list in source order. Go map iteration order is unspecified,
so facts about iteration-order independence are stated over permutations
of this list. -/
def stripePlans : List (String × Int) :=
  [("prod_J2FBsxvEl4VoUK", TierFree),
   ("prod_J06Q7nJH3HJcYN", TierPremium5),
   ("prod_J06Qu7zg1unO8R", TierPremium20),
   ("prod_J06QbGjCvmZQGZ", TierPremium80)]

/-- Go map read `tier, exists := stripePlans[planID]`: a key lookup,
which is deterministic (keys of a Go map are unique). -/
def stripePlansLookup (planID : String) : Option Int :=
  (stripePlans.find? (fun kv => kv.1 = planID)).map (fun kv => kv.2)

/-- The inline tier resolution of `processSub` (lines 147-150):
`tier, exists := stripePlans[s.Plan.Product.ID]; if !exists { tier = TierFree }`.
The spec names this total lookup `tierForPlan`. -/
def tierForPlan (planID : String) : Int :=
  match stripePlansLookup planID with
  | some t => t
  | none => TierFree

/-- `planForTier` iterates the Go map `stripePlans` in an unspecified
order and returns the first plan whose tier matches, or `""`. This
version takes the iteration order explicitly as a list. -/
def planForTierOn (entries : List (String × Int)) (t : Int) : String :=
  match entries with
  | [] => ""
  | (plan, tier) :: rest => if tier = t then plan else planForTierOn rest t

/-- `planForTier` from the source, read over the table in source order. -/
def planForTier (t : Int) : String :=
  planForTierOn stripePlans t

/-! ## Time and the user record -/

/-- Go `time.Time` restricted to what the reconciler uses: the unix
second count plus whether the value has been normalized to the UTC
location (`time.Unix(sec, 0).UTC()` yields `utc = true`). Go `!=` on
`time.Time` compares both components. -/
structure GoTime where
  unix : Int
  utc : Bool
deriving DecidableEq, Repr

/-- `time.Unix(sec, 0).UTC()` as used at line 152 of the reconciler. -/
def timeUnixUTC (sec : Int) : GoTime :=
  { unix := sec, utc := true }

/-- Modelled from the spec: the `database.User` record (its package
source is not among the provided files). The spec lists: identity id,
external-identity subject string, first/last name, email, password hash,
external billing-customer id, integer tier, subscription-expiry
timestamp. -/
structure User where
  id : String
  sub : String
  firstName : String
  lastName : String
  email : String
  passwordHash : String
  stripeID : String
  tier : Int
  subscribedUntil : GoTime
deriving DecidableEq, Repr

/-! ## The subscription reconciler -/

/-- The fields of a `stripe.Subscription` consumed by `processSub`:
status, plan/product id, and the current period end (epoch seconds). -/
structure Subscription where
  status : String
  productID : String
  currentPeriodEnd : Int
deriving DecidableEq, Repr

/-- `stripe.SubscriptionStatusActive`. -/
def subscriptionStatusActive : String := "active"

/-- `processSub` (lines 132-160), with the user already fetched by
Stripe customer id (the fetch itself is a storage call modelled at the
boundary: a fetch failure returns before any of this logic runs, with no
write). Returns the in-memory user record after the event is applied and
whether `UserSave` was invoked. -/
def processSub (u : User) (s : Subscription) : User × Bool :=
  let oldTier := u.tier
  let oldSubbedUntil := u.subscribedUntil
  let u1 : User :=
    if s.status ≠ subscriptionStatusActive then
      { u with tier := TierFree }
    else
      let tier := tierForPlan s.productID
      { u with tier := tier, subscribedUntil := timeUnixUTC s.currentPeriodEnd }
  if u1.tier ≠ oldTier ∨ u1.subscribedUntil ≠ oldSubbedUntil then
    (u1, true)
  else
    (u1, false)

/-! ## Errors and the tier / customer sync -/

/-- The error values built by the sync code: `errors.New`-style messages,
`errors.AddContext` wrapping, and `errors.Compose` of the non-nil errors
among its arguments (from the `gitlab.com/NebulousLabs/errors` module's
documented behaviour, modelled at the interface boundary). -/
inductive GoError where
  | msg (s : String)
  | addContext (ctx : String) (e : GoError)
  | compose (errs : List GoError)

/-- `errors.Compose(errs...)`: nil when every argument is nil, otherwise
an error carrying all non-nil arguments in order. -/
def errorsCompose (errs : List (Option GoError)) : Option GoError :=
  let nonNil := errs.filterMap id
  if nonNil.isEmpty then none else some (GoError.compose nonNil)

/-- Outcomes of the external calls `assignTier` makes, injected as data:
the first `customer.Update` (to the new plan), `UserSetTier` (the local
DB write), and the compensating `customer.Update` (back to the old
plan). `none` means the call succeeds. -/
structure SyncOutcome where
  updateErr : Option String
  setTierErr : Option String
  revertErr : Option String
deriving DecidableEq, Repr

/-- One observable external write performed by `assignTier`: a Stripe
customer-plan update (customer id, plan id) or the local tier write. -/
inductive SyncCall where
  | stripeUpdate (customerID : String) (plan : String)
  | dbSetTier (tier : Int)
deriving DecidableEq, Repr

/-- The result of `assignTier`: the returned error, the external calls
attempted in order, and the tier now persisted locally if the local
write succeeded (`none`: local record untouched). -/
structure AssignResult where
  err : Option GoError
  calls : List SyncCall
  localTier : Option Int

/-- `assignTier` (lines 179-204): update the Stripe customer to the plan
for the new tier; on success persist the tier locally; if the local
write fails, issue a compensating Stripe update back to the plan for the
old tier and return the composition of the failure(s). -/
def assignTier (tier : Int) (u : User) (o : SyncOutcome) : AssignResult :=
  let plan := planForTier tier
  let oldTier := u.tier
  match o.updateErr with
  | some e =>
    { err := some (GoError.addContext ("failed to update customer on Stripe") (GoError.msg e)),
      calls := [SyncCall.stripeUpdate u.stripeID plan],
      localTier := none }
  | none =>
    match o.setTierErr with
    | none =>
      { err := none,
        calls := [SyncCall.stripeUpdate u.stripeID plan, SyncCall.dbSetTier tier],
        localTier := some tier }
    | some e =>
      let err := GoError.addContext ("failed to update user in DB") (GoError.msg e)
      let plan2 := planForTier oldTier
      let err2 : Option GoError :=
        match o.revertErr with
        | none => none
        | some e2 => some (GoError.addContext ("failed to revert the change on Stripe") (GoError.msg e2))
      { err := errorsCompose [some err, err2],
        calls := [SyncCall.stripeUpdate u.stripeID plan, SyncCall.dbSetTier tier,
                  SyncCall.stripeUpdate u.stripeID plan2],
        localTier := none }

/-- The fields of `stripe.CustomerParams` set by `createStripeCustomer`. -/
structure CustomerParams where
  description : String
  email : String
  name : String
  plan : String
deriving DecidableEq, Repr

/-- `createStripeCustomer` (lines 165-175): build the customer params on
the plan for the user's tier and hand them to `customer.New` (the Stripe
call itself is external). Returns the params together with the user
record as the function leaves it: the function only reads `u`. -/
def createStripeCustomer (u : User) : CustomerParams × User :=
  let name := u.firstName ++ " " ++ u.lastName
  let freePlan := planForTier u.tier
  let cp : CustomerParams :=
    { description := u.sub, email := u.email, name := name, plan := freePlan }
  (cp, u)

/-! ## BSON values and the aggregation pipelines -/

/-- BSON values as the pipeline builders construct them: strings,
integers, booleans, ordered documents (`bson.D`) and arrays (`bson.A`). -/
inductive BsonVal where
  | str (s : String)
  | int (n : Int)
  | bool (b : Bool)
  | doc (d : List (String × BsonVal))
  | arr (a : List BsonVal)
deriving Repr, Inhabited

/-- `bson.D`: an ordered document, a list of key/value pairs. -/
abbrev BsonD := List (String × BsonVal)

/-- `generateUploadsPipeline` (lines 262-285): match, sort by timestamp
descending, skip, limit, lookup into skylinks, replaceRoot merging the
joined skylink under the record, project away the join artifact. -/
def generateUploadsPipeline (matchStage : BsonD) (offset pageSize : Int) : List BsonD :=
  let sortStage : BsonD := [("$sort", BsonVal.doc [("timestamp", BsonVal.int (-1))])]
  let skipStage : BsonD := [("$skip", BsonVal.int offset)]
  let limitStage : BsonD := [("$limit", BsonVal.int pageSize)]
  let lookupStage : BsonD :=
    [("$lookup", BsonVal.doc
      [("from", BsonVal.str ("skylinks")),
       ("localField", BsonVal.str ("skylink_id")),
       ("foreignField", BsonVal.str ("_id")),
       ("as", BsonVal.str ("fromSkylinks"))])]
  let replaceStage : BsonD :=
    [("$replaceRoot", BsonVal.doc
      [("newRoot", BsonVal.doc
        [("$mergeObjects", BsonVal.arr
          [BsonVal.doc [("$arrayElemAt", BsonVal.arr [BsonVal.str ("$fromSkylinks"), BsonVal.int 0])],
           BsonVal.str ("$$ROOT")])])])]
  let projectStage : BsonD := [("$project", BsonVal.doc [("fromSkylinks", BsonVal.int 0)])]
  [matchStage, sortStage, skipStage, limitStage, lookupStage, replaceStage, projectStage]

/-- The `size` expression of the downloads projection (lines 320-326):
`$cond [{$gt: [$bytes, 0]}, $bytes, $size]`. -/
def downloadSizeExpr : BsonVal :=
  BsonVal.doc
    [("$cond", BsonVal.arr
      [BsonVal.doc [("$gt", BsonVal.arr [BsonVal.str ("$bytes"), BsonVal.int 0])],
       BsonVal.str ("$bytes"),
       BsonVal.str ("$size")])]

/-- `generateDownloadsPipeline` (lines 290-329): identical to the
uploads pipeline except for the final projection, which keeps the named
fields and computes the effective `size` via `downloadSizeExpr`. -/
def generateDownloadsPipeline (matchStage : BsonD) (offset pageSize : Int) : List BsonD :=
  let sortStage : BsonD := [("$sort", BsonVal.doc [("timestamp", BsonVal.int (-1))])]
  let skipStage : BsonD := [("$skip", BsonVal.int offset)]
  let limitStage : BsonD := [("$limit", BsonVal.int pageSize)]
  let lookupStage : BsonD :=
    [("$lookup", BsonVal.doc
      [("from", BsonVal.str ("skylinks")),
       ("localField", BsonVal.str ("skylink_id")),
       ("foreignField", BsonVal.str ("_id")),
       ("as", BsonVal.str ("fromSkylinks"))])]
  let replaceStage : BsonD :=
    [("$replaceRoot", BsonVal.doc
      [("newRoot", BsonVal.doc
        [("$mergeObjects", BsonVal.arr
          [BsonVal.doc [("$arrayElemAt", BsonVal.arr [BsonVal.str ("$fromSkylinks"), BsonVal.int 0])],
           BsonVal.str ("$$ROOT")])])])]
  let projectStage : BsonD :=
    [("$project", BsonVal.doc
      [("skylink", BsonVal.int 1),
       ("name", BsonVal.int 1),
       ("user_id", BsonVal.int 1),
       ("skylink_id", BsonVal.int 1),
       ("timestamp", BsonVal.int 1),
       ("size", downloadSizeExpr)])]
  [matchStage, sortStage, skipStage, limitStage, lookupStage, replaceStage, projectStage]

/-- The aggregation operator of a single-key pipeline stage (every stage
the builders emit is a one-entry document). -/
def stageOp (d : BsonD) : String :=
  match d with
  | [] => ""
  | (k, _) :: _ => k

/-! ## Semantics of the merge and projection operators

MongoDB's aggregation engine is external to the repository; the operators
the pipelines rely on are modelled here from their documented behaviour:
`$mergeObjects` overwrites fields left to right ("the field, in the
resulting document, has the value from the last document merged"),
`$cond` / `$gt` are the usual conditional and integer comparison, and a
`"$name"` string is a field reference. -/

/-- First-match field lookup in an ordered document. -/
def getField (d : BsonD) (k : String) : Option BsonVal :=
  match d with
  | [] => none
  | (k1, v) :: rest => if k1 = k then some v else getField rest k

/-- Overwrite the field `k` (or append it when absent), as `$mergeObjects`
does when it folds a later document over an earlier one. -/
def setField (d : BsonD) (k : String) (v : BsonVal) : BsonD :=
  match d with
  | [] => [(k, v)]
  | (k1, v1) :: rest => if k1 = k then (k, v) :: rest else (k1, v1) :: setField rest k v

/-- Fold the fields of `d2` over `d1`, the later document winning. -/
def mergeTwo (d1 d2 : BsonD) : BsonD :=
  d2.foldl (fun acc kv => setField acc kv.1 kv.2) d1

/-- `$mergeObjects` over a list of documents, last document winning. -/
def mergeObjects (ds : List BsonD) : BsonD :=
  ds.foldl mergeTwo []

/-- Evaluate the aggregation expressions the downloads projection uses
(`$cond`, `$gt`, field references, literals) on one row. -/
def evalExpr (row : BsonD) : BsonVal → Option BsonVal
  | BsonVal.int n => some (BsonVal.int n)
  | BsonVal.bool b => some (BsonVal.bool b)
  | BsonVal.str s =>
      match s.data with
      | '$' :: _ => getField row (s.drop 1)
      | _ => some (BsonVal.str s)
  | BsonVal.doc [(op, BsonVal.arr [a, b])] =>
      if op = "$gt" then
        match evalExpr row a, evalExpr row b with
        | some (BsonVal.int x), some (BsonVal.int y) => some (BsonVal.bool (decide (y < x)))
        | _, _ => none
      else none
  | BsonVal.doc [(op, BsonVal.arr [c, t, f])] =>
      if op = "$cond" then
        match evalExpr row c with
        | some (BsonVal.bool true) => evalExpr row t
        | some (BsonVal.bool false) => evalExpr row f
        | _ => none
      else none
  | _ => none

/-! ## The count aggregator -/

/-- The `[match, count]` pipeline built by `count` (line 334). -/
def countPipeline (matchStage : BsonD) : List BsonD :=
  [matchStage, [("$count", BsonVal.str ("count"))]]

/-- Modelled from Mongo's documented `$match` / `$count` semantics: the
count stage emits one row holding the number of matched documents, and
emits no row at all when that number is zero. -/
def runCountPipeline (docs : List BsonD) (matchPred : BsonD → Bool) : List Int :=
  let n := (docs.filter matchPred).length
  if n = 0 then [] else [(n : Int)]

/-- `count` (lines 333-357), with the aggregation outcome injected as
data: either an execution error or the cursor's rows, each row either
decoding to its count value or failing to decode. Mirrors the source:
aggregation error is wrapped and returned with 0; an empty cursor is
count 0 with no error; a decode failure of the first row is wrapped and
returned with 0; otherwise the decoded count is returned. -/
def count (aggResult : Except String (List (Except String Int))) : Int × Option GoError :=
  match aggResult with
  | Except.error e => (0, some (GoError.addContext ("DB query failed") (GoError.msg e)))
  | Except.ok rows =>
    match rows with
    | [] => (0, none)
    | row :: _ =>
      match row with
      | Except.error e => (0, some (GoError.addContext ("failed to decode DB data") (GoError.msg e)))
      | Except.ok n => (n, none)

/-! ## Concrete sample data used by witnesses -/

/-- A sample user on a paid tier. -/
def sampleUser : User :=
  { id := "5fda32ef6e0aba5d16c0d550", sub := "auth0|abc", firstName := "Jane",
    lastName := "Doe", email := "jane@example.com", passwordHash := "h",
    stripeID := "cus_123", tier := TierPremium5,
    subscribedUntil := { unix := 500, utc := true } }

/-- A sample non-active subscription event. -/
def subCanceled : Subscription :=
  { status := "canceled", productID := "prod_J06Q7nJH3HJcYN", currentPeriodEnd := 900 }

/-- A sample active subscription event with a plan unknown to the table. -/
def subUnknownPlan : Subscription :=
  { status := "active", productID := "prod_unknown", currentPeriodEnd := 777 }

/-! ## Lemmas about the reconciler -/

/-- The user record `processSub` computes before the write decision. -/
lemma processSub_fst (u : User) (s : Subscription) :
    (processSub u s).1 =
      if s.status ≠ subscriptionStatusActive then { u with tier := TierFree }
      else { u with tier := tierForPlan s.productID,
                    subscribedUntil := timeUnixUTC s.currentPeriodEnd } := by
  simp only [processSub]
  split <;> split <;> rfl

/-- `processSub` reports a write exactly when the computed record differs
from the stored one on tier or expiry. -/
lemma processSub_snd (u : User) (s : Subscription) :
    (processSub u s).2 = true ↔
      ((processSub u s).1.tier ≠ u.tier ∨
        (processSub u s).1.subscribedUntil ≠ u.subscribedUntil) := by
  simp only [processSub]
  split <;> split <;> simp_all

/-- `stripePlans` has no key for a plan id outside the table. -/
lemma stripePlansLookup_eq_none (p : String) (hp : p ∉ stripePlans.map Prod.fst) :
    stripePlansLookup p = none := by
  unfold stripePlansLookup
  rw [List.find?_eq_none.2]
  · rfl
  · intro kv hkv
    simp only [decide_eq_true_eq]
    intro heq
    exact hp (heq ▸ List.mem_map_of_mem Prod.fst hkv)

/-- Unknown plan ids resolve to the free tier. -/
lemma tierForPlan_not_mem (p : String) (hp : p ∉ stripePlans.map Prod.fst) :
    tierForPlan p = TierFree := by
  simp [tierForPlan, stripePlansLookup_eq_none p hp]

/-- C1: for every inbound subscription event, `processSub` persists the
user record exactly when the computed (tier, expiry) pair differs from
the stored pair, and applying the same event again to the resulting user
performs zero writes. -/
theorem processSub_write_iff_changed_and_idempotent (u : User) (s : Subscription) :
    ((processSub u s).2 = true ↔
      ((processSub u s).1.tier, (processSub u s).1.subscribedUntil)
        ≠ (u.tier, u.subscribedUntil))
    ∧ (processSub (processSub u s).1 s).2 = false := by
  constructor
  · rw [processSub_snd]
    simp only [Ne, Prod.mk.injEq, not_and_or]
  · have h1 := processSub_fst u s
    have h2 := processSub_fst (processSub u s).1 s
    have hsnd := processSub_snd (processSub u s).1 s
    by_cases hs : s.status = subscriptionStatusActive
    · rw [if_neg (by simp [hs])] at h1 h2
      have hne : ¬((processSub (processSub u s).1 s).1.tier ≠ (processSub u s).1.tier ∨
          (processSub (processSub u s).1 s).1.subscribedUntil ≠ (processSub u s).1.subscribedUntil) := by
        push_neg
        refine ⟨?_, ?_⟩
        · rw [h2, h1]
        · rw [h2, h1]
      have := (not_iff_not.2 hsnd).2 hne
      simpa using this
    · rw [if_pos (by simp [hs])] at h1 h2
      have hne : ¬((processSub (processSub u s).1 s).1.tier ≠ (processSub u s).1.tier ∨
          (processSub (processSub u s).1 s).1.subscribedUntil ≠ (processSub u s).1.subscribedUntil) := by
        push_neg
        refine ⟨?_, ?_⟩
        · rw [h2, h1]
        · rw [h2, h1]
      have := (not_iff_not.2 hsnd).2 hne
      simpa using this

/-- C5: a non-active subscription event demotes the user to the free
tier, leaves the stored expiry exactly as it was, and changes no other
field of the user. -/
theorem processSub_inactive_frame (u : User) (s : Subscription)
    (h : s.status ≠ subscriptionStatusActive) :
    (processSub u s).1.tier = TierFree ∧
    (processSub u s).1.subscribedUntil = u.subscribedUntil ∧
    (processSub u s).1.id = u.id ∧
    (processSub u s).1.sub = u.sub ∧
    (processSub u s).1.firstName = u.firstName ∧
    (processSub u s).1.lastName = u.lastName ∧
    (processSub u s).1.email = u.email ∧
    (processSub u s).1.passwordHash = u.passwordHash ∧
    (processSub u s).1.stripeID = u.stripeID := by
  have h1 := processSub_fst u s
  rw [if_pos h] at h1
  rw [h1]
  simp

/-- Witness for C5 at a concrete canceled event. -/
theorem processSub_inactive_frame_witness :
    (processSub sampleUser subCanceled).1.tier = TierFree ∧
    (processSub sampleUser subCanceled).1.subscribedUntil = sampleUser.subscribedUntil ∧
    (processSub sampleUser subCanceled).1.id = sampleUser.id ∧
    (processSub sampleUser subCanceled).1.sub = sampleUser.sub ∧
    (processSub sampleUser subCanceled).1.firstName = sampleUser.firstName ∧
    (processSub sampleUser subCanceled).1.lastName = sampleUser.lastName ∧
    (processSub sampleUser subCanceled).1.email = sampleUser.email ∧
    (processSub sampleUser subCanceled).1.passwordHash = sampleUser.passwordHash ∧
    (processSub sampleUser subCanceled).1.stripeID = sampleUser.stripeID :=
  processSub_inactive_frame sampleUser subCanceled (by decide)

/-- C9: an active event whose plan is absent from the table sets the
tier to free, still sets the expiry to the event's period end normalized
to UTC, and triggers a write whenever the stored expiry differs from the
event's period end. -/
theorem processSub_active_unknown_plan (u : User) (s : Subscription)
    (hs : s.status = subscriptionStatusActive)
    (hp : s.productID ∉ stripePlans.map Prod.fst) :
    (processSub u s).1.tier = TierFree ∧
    (processSub u s).1.subscribedUntil = timeUnixUTC s.currentPeriodEnd ∧
    (u.subscribedUntil ≠ timeUnixUTC s.currentPeriodEnd → (processSub u s).2 = true) := by
  have h1 := processSub_fst u s
  rw [if_neg (by simp [hs])] at h1
  refine ⟨?_, ?_, ?_⟩
  · rw [h1]
    simpa using tierForPlan_not_mem s.productID hp
  · rw [h1]
  · intro hne
    refine (processSub_snd u s).2 (Or.inr ?_)
    rw [h1]
    exact fun hcontra => hne hcontra.symm

/-- Witness for C9 at a concrete active event with an unknown plan. -/
theorem processSub_active_unknown_plan_witness :
    (processSub sampleUser subUnknownPlan).1.tier = TierFree ∧
    (processSub sampleUser subUnknownPlan).1.subscribedUntil
      = timeUnixUTC subUnknownPlan.currentPeriodEnd ∧
    (sampleUser.subscribedUntil ≠ timeUnixUTC subUnknownPlan.currentPeriodEnd →
      (processSub sampleUser subUnknownPlan).2 = true) :=
  processSub_active_unknown_plan sampleUser subUnknownPlan (by decide) (by decide)

/-! ## Lemmas about planForTier -/

/-- When no table entry maps to `t`, the scan returns the empty id. -/
lemma planForTierOn_eq_empty (l : List (String × Int)) (t : Int)
    (h : ∀ kv ∈ l, kv.2 ≠ t) : planForTierOn l t = "" := by
  induction l with
  | nil => rfl
  | cons hd tl ih =>
    obtain ⟨p1, t1⟩ := hd
    have ht1 : t1 ≠ t := h (p1, t1) (List.mem_cons_self _ _)
    simp only [planForTierOn, if_neg ht1]
    exact ih fun kv hkv => h kv (List.mem_cons_of_mem _ hkv)

/-- When the tiers of the table are pairwise distinct, the scan returns
the unique plan mapped to `t`, whatever the iteration order. -/
lemma planForTierOn_eq_of_mem (l : List (String × Int)) (p : String) (t : Int)
    (hnd : (l.map Prod.snd).Nodup) (hm : (p, t) ∈ l) : planForTierOn l t = p := by
  induction l with
  | nil => cases hm
  | cons hd tl ih =>
    obtain ⟨p1, t1⟩ := hd
    simp only [List.map_cons, List.nodup_cons] at hnd
    rcases List.mem_cons.1 hm with heq | htl
    · rw [Prod.mk.injEq] at heq
      obtain ⟨hp1, ht1⟩ := heq
      subst hp1
      subst ht1
      simp [planForTierOn]
    · have ht1 : t1 ≠ t := by
        intro hcontra
        exact hnd.1 (hcontra ▸ List.mem_map_of_mem Prod.snd htl)
      simp only [planForTierOn, if_neg ht1]
      exact ih hnd.2 htl

/-- C6: `tierForPlan` is total, resolving every plan id outside the
static table to the free tier, and `planForTier` returns the empty
identifier for every tier no plan maps to. -/
theorem tier_plan_mapping_total :
    (∀ p : String, p ∉ stripePlans.map Prod.fst → tierForPlan p = TierFree) ∧
    (∀ t : Int, (∀ kv ∈ stripePlans, kv.2 ≠ t) → planForTier t = "") := by
  constructor
  · exact fun p hp => tierForPlan_not_mem p hp
  · exact fun t h => planForTierOn_eq_empty stripePlans t h

/-- Witness for C6: an unknown plan id and an unmapped tier. -/
theorem tier_plan_mapping_total_witness :
    tierForPlan ("prod_unknown") = TierFree ∧ planForTier 99 = "" :=
  ⟨tier_plan_mapping_total.1 ("prod_unknown") (by decide),
   tier_plan_mapping_total.2 99 (by decide)⟩

/-- C10: `planForTier` is deterministic: scanning the `stripePlans` table
in any iteration order yields the same plan id, because no two table
entries map to the same tier. -/
theorem planForTier_deterministic (t : Int) (l : List (String × Int))
    (hperm : l.Perm stripePlans) : planForTierOn l t = planForTier t := by
  have hnd : (stripePlans.map Prod.snd).Nodup := by decide
  have hndl : (l.map Prod.snd).Nodup := ((hperm.map Prod.snd).nodup_iff).2 hnd
  by_cases hex : ∃ p, (p, t) ∈ stripePlans
  · obtain ⟨p, hp⟩ := hex
    have hpl : (p, t) ∈ l := hperm.mem_iff.2 hp
    rw [planForTierOn_eq_of_mem l p t hndl hpl, planForTier,
      planForTierOn_eq_of_mem stripePlans p t hnd hp]
  · have hall : ∀ kv ∈ stripePlans, kv.2 ≠ t := by
      rintro ⟨a, b⟩ hkv hb
      subst hb
      exact hex ⟨a, hkv⟩
    rw [planForTierOn_eq_empty l t fun kv hkv => hall kv (hperm.mem_iff.1 hkv),
      planForTier, planForTierOn_eq_empty stripePlans t hall]

/-- Witness for C10: the table scanned in reverse order yields the same
plan for the premium-5 tier. -/
theorem planForTier_deterministic_witness :
    planForTierOn
      [("prod_J06QbGjCvmZQGZ", TierPremium80),
       ("prod_J06Qu7zg1unO8R", TierPremium20),
       ("prod_J06Q7nJH3HJcYN", TierPremium5),
       ("prod_J2FBsxvEl4VoUK", TierFree)] TierPremium5 = planForTier TierPremium5 :=
  planForTier_deterministic TierPremium5 _ (by decide)

/-- C2: `assignTier` updates the Stripe plan first and persists locally
only on success; a local failure after a successful Stripe update issues
a compensating Stripe update back to the previous tier's plan and
returns the original failure, composed with the compensation failure
when that also fails; a failed initial Stripe update leaves the local
record unwritten. -/
theorem assignTier_two_phase (tier : Int) (u : User) (o : SyncOutcome) :
    (∀ e, o.updateErr = some e →
      assignTier tier u o =
        { err := some (GoError.addContext ("failed to update customer on Stripe") (GoError.msg e)),
          calls := [SyncCall.stripeUpdate u.stripeID (planForTier tier)],
          localTier := none }) ∧
    (o.updateErr = none → o.setTierErr = none →
      assignTier tier u o =
        { err := none,
          calls := [SyncCall.stripeUpdate u.stripeID (planForTier tier),
                    SyncCall.dbSetTier tier],
          localTier := some tier }) ∧
    (∀ e, o.updateErr = none → o.setTierErr = some e →
      (assignTier tier u o).localTier = none ∧
      (assignTier tier u o).calls =
        [SyncCall.stripeUpdate u.stripeID (planForTier tier),
         SyncCall.dbSetTier tier,
         SyncCall.stripeUpdate u.stripeID (planForTier u.tier)] ∧
      (o.revertErr = none →
        (assignTier tier u o).err =
          some (GoError.compose
            [GoError.addContext ("failed to update user in DB") (GoError.msg e)])) ∧
      (∀ e2, o.revertErr = some e2 →
        (assignTier tier u o).err =
          some (GoError.compose
            [GoError.addContext ("failed to update user in DB") (GoError.msg e),
             GoError.addContext ("failed to revert the change on Stripe") (GoError.msg e2)]))) := by
  refine ⟨?_, ?_, ?_⟩
  · intro e he
    simp [assignTier, he]
  · intro h1 h2
    simp [assignTier, h1, h2]
  · intro e h1 h2
    refine ⟨?_, ?_, ?_, ?_⟩
    · cases hr : o.revertErr <;> simp [assignTier, h1, h2, hr]
    · cases hr : o.revertErr <;> simp [assignTier, h1, h2, hr]
    · intro hr
      simp [assignTier, h1, h2, hr, errorsCompose]
    · intro e2 hr
      simp [assignTier, h1, h2, hr, errorsCompose]

/-- Witness for C2: a run where the local write and the compensation
both fail reports the composed failure, leaves the local record
unwritten, and shows the compensating Stripe call back to the old plan. -/
theorem assignTier_two_phase_witness :
    (assignTier TierPremium20 sampleUser
      { updateErr := none, setTierErr := some ("db down"), revertErr := some ("stripe down") }).localTier
        = none ∧
    (assignTier TierPremium20 sampleUser
      { updateErr := none, setTierErr := some ("db down"), revertErr := some ("stripe down") }).calls =
      [SyncCall.stripeUpdate sampleUser.stripeID (planForTier TierPremium20),
       SyncCall.dbSetTier TierPremium20,
       SyncCall.stripeUpdate sampleUser.stripeID (planForTier sampleUser.tier)] ∧
    (assignTier TierPremium20 sampleUser
      { updateErr := none, setTierErr := some ("db down"), revertErr := some ("stripe down") }).err =
      some (GoError.compose
        [GoError.addContext ("failed to update user in DB") (GoError.msg ("db down")),
         GoError.addContext ("failed to revert the change on Stripe") (GoError.msg ("stripe down"))]) := by
  have h := (assignTier_two_phase TierPremium20 sampleUser
    { updateErr := none, setTierErr := some ("db down"), revertErr := some ("stripe down") }).2.2
      ("db down") rfl rfl
  exact ⟨h.1, h.2.1, h.2.2.2 ("stripe down") rfl⟩

/-- C8: `createStripeCustomer` builds the new billing customer on the
plan for the user's tier — the free plan for a freshly created user on
the free tier — and leaves the local user record untouched. -/
theorem createStripeCustomer_free (u : User) (h : u.tier = TierFree) :
    (createStripeCustomer u).2 = u ∧
    (createStripeCustomer u).1.plan = planForTier TierFree ∧
    (createStripeCustomer u).1.plan = "prod_J2FBsxvEl4VoUK" ∧
    (createStripeCustomer u).1.description = u.sub ∧
    (createStripeCustomer u).1.email = u.email := by
  refine ⟨rfl, ?_, ?_, rfl, rfl⟩
  · simp [createStripeCustomer, h]
  · simp [createStripeCustomer, h]
    rfl

/-- Witness for C8 at a concrete free-tier user. -/
theorem createStripeCustomer_free_witness :
    (createStripeCustomer { sampleUser with tier := TierFree }).2
        = { sampleUser with tier := TierFree } ∧
    (createStripeCustomer { sampleUser with tier := TierFree }).1.plan = planForTier TierFree ∧
    (createStripeCustomer { sampleUser with tier := TierFree }).1.plan = "prod_J2FBsxvEl4VoUK" ∧
    (createStripeCustomer { sampleUser with tier := TierFree }).1.description
        = ({ sampleUser with tier := TierFree } : User).sub ∧
    (createStripeCustomer { sampleUser with tier := TierFree }).1.email
        = ({ sampleUser with tier := TierFree } : User).email :=
  createStripeCustomer_free { sampleUser with tier := TierFree } rfl

/-! ## Lemmas about the merge semantics -/

lemma getField_setField_self (d : BsonD) (k : String) (v : BsonVal) :
    getField (setField d k v) k = some v := by
  induction d with
  | nil => simp [setField, getField]
  | cons hd tl ih =>
    obtain ⟨k1, v1⟩ := hd
    by_cases h : k1 = k
    · simp [setField, h, getField]
    · simp [setField, h, getField, ih]

lemma getField_setField_ne (d : BsonD) (k : String) (v : BsonVal) (k2 : String)
    (h : k2 ≠ k) : getField (setField d k v) k2 = getField d k2 := by
  induction d with
  | nil =>
    show getField [(k, v)] k2 = getField [] k2
    simp [getField, Ne.symm h]
  | cons hd tl ih =>
    obtain ⟨k1, v1⟩ := hd
    by_cases h1 : k1 = k
    · subst h1
      rw [show setField ((k1, v1) :: tl) k1 v = (k1, v) :: tl from by simp [setField]]
      simp [getField, Ne.symm h]
    · rw [show setField ((k1, v1) :: tl) k v = (k1, v1) :: setField tl k v from by
        simp [setField, h1]]
      by_cases h2 : k1 = k2
      · subst h2
        simp [getField]
      · simp [getField, h2, ih]

lemma mergeTwo_getField_not_mem (d2 : BsonD) :
    ∀ (d1 : BsonD) (k : String), k ∉ d2.map Prod.fst →
      getField (mergeTwo d1 d2) k = getField d1 k := by
  induction d2 with
  | nil => intro d1 k _; rfl
  | cons hd tl ih =>
    intro d1 k h
    obtain ⟨k1, v1⟩ := hd
    simp only [List.map_cons, List.mem_cons, not_or] at h
    show getField (mergeTwo (setField d1 k1 v1) tl) k = getField d1 k
    rw [ih (setField d1 k1 v1) k h.2]
    exact getField_setField_ne d1 k1 v1 k h.1

lemma mergeTwo_getField_mem (d2 : BsonD) :
    ∀ (d1 : BsonD) (k : String) (v : BsonVal),
      (d2.map Prod.fst).Nodup → (k, v) ∈ d2 →
      getField (mergeTwo d1 d2) k = some v := by
  induction d2 with
  | nil => intro d1 k v _ hm; cases hm
  | cons hd tl ih =>
    intro d1 k v hnd hm
    obtain ⟨k1, v1⟩ := hd
    simp only [List.map_cons, List.nodup_cons] at hnd
    rcases List.mem_cons.1 hm with heq | htl
    · rw [Prod.mk.injEq] at heq
      obtain ⟨hk, hv⟩ := heq
      subst hk
      subst hv
      show getField (mergeTwo (setField d1 k v) tl) k = some v
      rw [mergeTwo_getField_not_mem tl (setField d1 k v) k hnd.1]
      exact getField_setField_self d1 k v
    · show getField (mergeTwo (setField d1 k1 v1) tl) k = some v
      exact ih (setField d1 k1 v1) k v hnd.2 htl

lemma getField_mem_exists (d : BsonD) (k : String) (h : k ∈ d.map Prod.fst) :
    ∃ v, getField d k = some v ∧ (k, v) ∈ d := by
  induction d with
  | nil => cases h
  | cons hd tl ih =>
    obtain ⟨k1, v1⟩ := hd
    by_cases h1 : k1 = k
    · subst h1
      exact ⟨v1, by simp [getField], List.mem_cons_self _ _⟩
    · have hk : k ∈ tl.map Prod.fst := by
        rcases List.mem_cons.1 h with heq | htl
        · exact absurd heq.symm h1
        · exact htl
      obtain ⟨v, hv, hmem⟩ := ih hk
      exact ⟨v, by simp [getField, h1, hv], List.mem_cons_of_mem _ hmem⟩

/-- In the `$mergeObjects [joined skylink, record]` merge the record's
own fields win on key collision. -/
lemma mergeObjects_record_wins (sky rec : BsonD) (k : String)
    (hnd : (rec.map Prod.fst).Nodup) (hk : k ∈ rec.map Prod.fst) :
    getField (mergeObjects [sky, rec]) k = getField rec k := by
  obtain ⟨v, hv, hmem⟩ := getField_mem_exists rec k hk
  rw [hv]
  show getField (mergeTwo (mergeTwo [] sky) rec) k = some v
  exact mergeTwo_getField_mem rec (mergeTwo [] sky) k v hnd hmem

/-- C3: both pipeline builders emit exactly seven stages, in the order
match, sort by timestamp descending, skip, limit, lookup into the
skylinks collection by id, merge with the record's own fields winning
over the joined skylink's fields, project; skip and limit (positions 2
and 3) precede the join (position 4). -/
theorem pipelines_seven_stages_ordered (m : BsonD) (offset pageSize : Int) :
    (generateUploadsPipeline m offset pageSize).length = 7 ∧
    (generateDownloadsPipeline m offset pageSize).length = 7 ∧
    (generateUploadsPipeline m offset pageSize)[0]? = some m ∧
    (generateDownloadsPipeline m offset pageSize)[0]? = some m ∧
    (generateUploadsPipeline m offset pageSize)[1]? =
      some [("$sort", BsonVal.doc [("timestamp", BsonVal.int (-1))])] ∧
    (generateDownloadsPipeline m offset pageSize)[1]? =
      some [("$sort", BsonVal.doc [("timestamp", BsonVal.int (-1))])] ∧
    (generateUploadsPipeline m offset pageSize)[2]? = some [("$skip", BsonVal.int offset)] ∧
    (generateDownloadsPipeline m offset pageSize)[2]? = some [("$skip", BsonVal.int offset)] ∧
    (generateUploadsPipeline m offset pageSize)[3]? = some [("$limit", BsonVal.int pageSize)] ∧
    (generateDownloadsPipeline m offset pageSize)[3]? = some [("$limit", BsonVal.int pageSize)] ∧
    (generateUploadsPipeline m offset pageSize)[4]? =
      some [("$lookup", BsonVal.doc
        [("from", BsonVal.str ("skylinks")),
         ("localField", BsonVal.str ("skylink_id")),
         ("foreignField", BsonVal.str ("_id")),
         ("as", BsonVal.str ("fromSkylinks"))])] ∧
    (generateDownloadsPipeline m offset pageSize)[4]? =
      some [("$lookup", BsonVal.doc
        [("from", BsonVal.str ("skylinks")),
         ("localField", BsonVal.str ("skylink_id")),
         ("foreignField", BsonVal.str ("_id")),
         ("as", BsonVal.str ("fromSkylinks"))])] ∧
    (generateUploadsPipeline m offset pageSize)[5]? =
      some [("$replaceRoot", BsonVal.doc
        [("newRoot", BsonVal.doc
          [("$mergeObjects", BsonVal.arr
            [BsonVal.doc [("$arrayElemAt", BsonVal.arr [BsonVal.str ("$fromSkylinks"), BsonVal.int 0])],
             BsonVal.str ("$$ROOT")])])])] ∧
    (generateDownloadsPipeline m offset pageSize)[5]? =
      some [("$replaceRoot", BsonVal.doc
        [("newRoot", BsonVal.doc
          [("$mergeObjects", BsonVal.arr
            [BsonVal.doc [("$arrayElemAt", BsonVal.arr [BsonVal.str ("$fromSkylinks"), BsonVal.int 0])],
             BsonVal.str ("$$ROOT")])])])] ∧
    stageOp ((generateUploadsPipeline m offset pageSize).getD 6 []) = "$project" ∧
    stageOp ((generateDownloadsPipeline m offset pageSize).getD 6 []) = "$project" ∧
    (∀ (sky rec : BsonD) (k : String),
      (rec.map Prod.fst).Nodup → k ∈ rec.map Prod.fst →
      getField (mergeObjects [sky, rec]) k = getField rec k) := by
  refine ⟨rfl, rfl, rfl, rfl, rfl, rfl, rfl, rfl, rfl, rfl, rfl, rfl, rfl, rfl, rfl, rfl, ?_⟩
  exact fun sky rec k hnd hk => mergeObjects_record_wins sky rec k hnd hk

/-- Witness for C3: concrete pipeline shape and a concrete collision in
which the record's `size` field wins over the joined skylink's. -/
theorem pipelines_seven_stages_ordered_witness :
    (generateUploadsPipeline [("$match", BsonVal.doc [("user_id", BsonVal.str ("u1"))])] 1 5).length = 7 ∧
    (generateDownloadsPipeline [("$match", BsonVal.doc [("user_id", BsonVal.str ("u1"))])] 1 5).length = 7 ∧
    getField (mergeObjects
      [[("size", BsonVal.int 200), ("skylink", BsonVal.str ("abc"))],
       [("size", BsonVal.int 50), ("timestamp", BsonVal.int 9)]]) ("size") =
      getField [("size", BsonVal.int 50), ("timestamp", BsonVal.int 9)] ("size") := by
  obtain ⟨h1, h2, hrest⟩ :=
    pipelines_seven_stages_ordered [("$match", BsonVal.doc [("user_id", BsonVal.str ("u1"))])] 1 5
  refine ⟨h1, h2, ?_⟩
  have hm := hrest.2.2.2.2.2.2.2.2.2.2.2.2.2.2
  exact hm [("size", BsonVal.int 200), ("skylink", BsonVal.str ("abc"))]
    [("size", BsonVal.int 50), ("timestamp", BsonVal.int 9)] ("size")
    (by simp) (by simp)

/-- Evaluating the downloads `size` projection on a row carrying the
record's byte override and the joined skylink's size. -/
lemma evalExpr_downloadSize (bytes size : Int) :
    evalExpr [("bytes", BsonVal.int bytes), ("size", BsonVal.int size)] downloadSizeExpr
      = some (BsonVal.int (if 0 < bytes then bytes else size)) := by
  by_cases h : 0 < bytes
  · rw [if_pos h]
    simp [downloadSizeExpr, evalExpr, getField, h,
      show ("$bytes".drop 1) = "bytes" from rfl, show ("$size".drop 1) = "size" from rfl]
  · rw [if_neg h]
    simp [downloadSizeExpr, evalExpr, getField, h,
      show ("$bytes".drop 1) = "bytes" from rfl, show ("$size".drop 1) = "size" from rfl]

/-- C4: the downloads projection computes the effective size as the
record's byte override when positive, else the joined skylink's full
size; in particular override 50 with skylink size 200 yields 50, and
override 0 yields 200. -/
theorem downloads_effective_size (m : BsonD) (offset pageSize bytes size : Int) :
    (generateDownloadsPipeline m offset pageSize)[6]? =
      some [("$project", BsonVal.doc
        [("skylink", BsonVal.int 1), ("name", BsonVal.int 1), ("user_id", BsonVal.int 1),
         ("skylink_id", BsonVal.int 1), ("timestamp", BsonVal.int 1),
         ("size", downloadSizeExpr)])] ∧
    evalExpr [("bytes", BsonVal.int bytes), ("size", BsonVal.int size)] downloadSizeExpr
      = some (BsonVal.int (if 0 < bytes then bytes else size)) ∧
    evalExpr [("bytes", BsonVal.int 50), ("size", BsonVal.int 200)] downloadSizeExpr
      = some (BsonVal.int 50) ∧
    evalExpr [("bytes", BsonVal.int 0), ("size", BsonVal.int 200)] downloadSizeExpr
      = some (BsonVal.int 200) := by
  refine ⟨rfl, evalExpr_downloadSize bytes size, ?_, ?_⟩
  · simpa using evalExpr_downloadSize 50 200
  · simpa using evalExpr_downloadSize 0 200

/-- C7: `count` runs the `[match, count]` pipeline and returns the
number of matching documents; an empty count-stage result is count 0
with no error, an aggregation failure or a decode failure is returned as
an error with count 0. -/
theorem count_match_count_semantics :
    (∀ matchStage : BsonD, countPipeline matchStage
        = [matchStage, [("$count", BsonVal.str ("count"))]]) ∧
    (∀ (docs : List BsonD) (p : BsonD → Bool),
      count (Except.ok ((runCountPipeline docs p).map Except.ok))
        = (((docs.filter p).length : Int), none)) ∧
    (∀ e : String, count (Except.error e)
        = (0, some (GoError.addContext ("DB query failed") (GoError.msg e)))) ∧
    (∀ (e : String) (rest : List (Except String Int)),
      count (Except.ok (Except.error e :: rest))
        = (0, some (GoError.addContext ("failed to decode DB data") (GoError.msg e)))) := by
  refine ⟨fun _ => rfl, ?_, fun _ => rfl, fun _ _ => rfl⟩
  intro docs p
  by_cases h : (docs.filter p).length = 0
  · simp [runCountPipeline, count, h]
  · simp [runCountPipeline, count, h]
